import Mathlib

/-!
Formal model of `src/image_preprocess/scripts/preprocess_node.py`
(tidbots/yolo26_ros_docker).

The node keeps two operating parameters, `gamma` and `clahe_clip`, and an
auto-tuning controller that nudges them from smoothed brightness statistics.
Machine floats of the source are modelled as rationals; the per-pixel image
transforms (`_apply_gamma`, `_apply_clahe`) and the pixel-level statistics
extraction (`_compute_stats`) are external to the controller and are modelled
by feeding an arbitrary `BrightnessStats` value (or `none` for a frame whose
decoding fails) into the per-frame callback.
-/

namespace Preprocess

/-- `BrightnessStats` dataclass (lines 14-19): per-frame brightness statistics. -/
structure BrightnessStats where
  mean : ℚ
  std : ℚ
  sat_ratio : ℚ
  dark_ratio : ℚ
  deriving Repr, DecidableEq

/-- The configuration read in `PreprocessNode.__init__` (lines 44-78) from the
parameter server, restricted to the fields the controller uses.  The source
reads each value with `rospy.get_param` and stores it unchecked. -/
structure Config where
  gamma : ℚ
  clahe_clip : ℚ
  auto_tune_enable : Bool
  target_mean : ℚ
  dark_mean_thr : ℚ
  bright_mean_thr : ℚ
  low_contrast_std_thr : ℚ
  sat_ratio_thr : ℚ
  dark_ratio_thr : ℚ
  gamma_step : ℚ
  gamma_step_saturated : ℚ
  clahe_step : ℚ
  gamma_min : ℚ
  gamma_max : ℚ
  clahe_min : ℚ
  clahe_max : ℚ
  update_every_n : ℕ
  min_update_interval : ℚ
  ema_alpha : ℚ
  deriving Repr, DecidableEq

/-- The default values hard-coded in `__init__` (lines 44-78). -/
def defaultConfig : Config where
  gamma := 11/10
  clahe_clip := 5/2
  auto_tune_enable := false
  target_mean := 125
  dark_mean_thr := 90
  bright_mean_thr := 170
  low_contrast_std_thr := 35
  sat_ratio_thr := 3/25
  dark_ratio_thr := 3/25
  gamma_step := 1/20
  gamma_step_saturated := 2/25
  clahe_step := 1/5
  gamma_min := 7/10
  gamma_max := 8/5
  clahe_min := 6/5
  clahe_max := 19/5
  update_every_n := 8
  min_update_interval := 1/4
  ema_alpha := 3/20

/-- A configuration violating the physical constraints named by the spec:
inverted gamma bounds, a negative step size, and a smoothing factor above 1. -/
def badConfig : Config :=
  { defaultConfig with gamma_min := 2, gamma_max := 1, gamma_step := -1, ema_alpha := 3 }

/-- The mutable state of a `PreprocessNode`: `self.gamma`, `self.clahe_clip`
(lines 44-45), `self._frame`, `self._last_update_t`, `self._ema`
(lines 85-87). -/
structure NodeState where
  gamma : ℚ
  clahe_clip : ℚ
  frame : ℕ
  last_update_t : ℚ
  ema : BrightnessStats
  deriving Repr, DecidableEq

/-- State produced by `__init__` (lines 44-45, 85-87): parameters are stored
as read, `_frame = 0`, `_last_update_t = 0.0`, `_ema = BrightnessStats()`
(the all-zero snapshot).  No clamping and no validation happens here. -/
def mkNode (cfg : Config) : NodeState where
  gamma := cfg.gamma
  clahe_clip := cfg.clahe_clip
  frame := 0
  last_update_t := 0
  ema := { mean := 0, std := 0, sat_ratio := 0, dark_ratio := 0 }

/-- `__init__` as a fallible constructor.  The source body contains no
validation and no raise path, so the translation always returns `Except.ok`. -/
def mkNodeE (cfg : Config) : Except String NodeState :=
  Except.ok (mkNode cfg)

/-- `np.clip(x, lo, hi) = np.minimum(hi, np.maximum(x, lo))` (lines 151-152). -/
def npClip (x lo hi : ℚ) : ℚ :=
  min hi (max x lo)

/-- `_ema_update` (lines 100-105): each field of the smoothed statistics is
replaced by `(1 - a) * old + a * new`. -/
def emaUpdate (a : ℚ) (e s : BrightnessStats) : BrightnessStats where
  mean := (1 - a) * e.mean + a * s.mean
  std := (1 - a) * e.std + a * s.std
  sat_ratio := (1 - a) * e.sat_ratio + a * s.sat_ratio
  dark_ratio := (1 - a) * e.dark_ratio + a * s.dark_ratio

/-- The nominal relaxation target `target = 2.3` (line 143). -/
def claheTarget : ℚ := 23/10

/-- Dark / bright gamma control (lines 132-135), reached only when the
saturation branch did not fire. -/
def proposeGammaRule (cfg : Config) (e : BrightnessStats) (gamma : ℚ) : ℚ :=
  if e.mean < cfg.dark_mean_thr ∨ cfg.dark_ratio_thr < e.dark_ratio then
    min cfg.gamma_max (gamma + cfg.gamma_step)
  else if cfg.bright_mean_thr < e.mean then
    max cfg.gamma_min (gamma - cfg.gamma_step)
  else
    gamma

/-- Contrast control (lines 138-147), reached only when the saturation branch
did not fire: raise the clip limit under low contrast, otherwise relax toward
`claheTarget` with a dead-band of `0.2`. -/
def proposeClaheRule (cfg : Config) (e : BrightnessStats) (clahe : ℚ) : ℚ :=
  if e.std < cfg.low_contrast_std_thr then
    min cfg.clahe_max (clahe + cfg.clahe_step)
  else if claheTarget + 1/5 < clahe then
    max cfg.clahe_min (clahe - cfg.clahe_step * (1/2))
  else if clahe < claheTarget - 1/5 then
    min cfg.clahe_max (clahe + cfg.clahe_step * (3/10))
  else
    clahe

/-- The decision block of `_auto_tune` (lines 126-147): the saturation branch
has priority; otherwise the gamma rule and the clahe rule both run. -/
def tunePropose (cfg : Config) (e : BrightnessStats) (gamma clahe : ℚ) : ℚ × ℚ :=
  if cfg.sat_ratio_thr < e.sat_ratio then
    (max cfg.gamma_min (gamma - cfg.gamma_step_saturated),
     max cfg.clahe_min (clahe - cfg.clahe_step))
  else
    (proposeGammaRule cfg e gamma, proposeClaheRule cfg e clahe)

/-- `_auto_tune` (lines 107-159): the two rate-limiting gates (lines 113-116),
the decision block, and the commit step (lines 150-153) that clamps and stores
the proposal and resets `_last_update_t` when either component moved by more
than `1e-6`. -/
def autoTune (cfg : Config) (st : NodeState) (now : ℚ) : NodeState :=
  if st.frame % cfg.update_every_n ≠ 0 then st
  else if now - st.last_update_t < cfg.min_update_interval then st
  else if 1/1000000 < |(tunePropose cfg st.ema st.gamma st.clahe_clip).1 - st.gamma| ∨
          1/1000000 < |(tunePropose cfg st.ema st.gamma st.clahe_clip).2 - st.clahe_clip| then
    { st with
      gamma := npClip (tunePropose cfg st.ema st.gamma st.clahe_clip).1 cfg.gamma_min cfg.gamma_max
      clahe_clip := npClip (tunePropose cfg st.ema st.gamma st.clahe_clip).2 cfg.clahe_min cfg.clahe_max
      last_update_t := now }
  else st

/-- The callback `cb` (lines 179-200) restricted to its effect on the
controller state: `_frame` is incremented first (line 180); a frame whose
decoding fails is skipped with no further effect and no output (lines 181-185,
`m = none`, second component `false`); otherwise the statistics are smoothed
(line 189) and, when enabled, `_auto_tune` runs on the post-update state
(lines 191-192), after which output is published (second component `true`). -/
def processFrame (cfg : Config) (st : NodeState) (now : ℚ) (m : Option BrightnessStats) :
    NodeState × Bool :=
  match m with
  | none => ({ st with frame := st.frame + 1 }, false)
  | some s =>
      (if cfg.auto_tune_enable then
        autoTune cfg { st with frame := st.frame + 1, ema := emaUpdate cfg.ema_alpha st.ema s } now
      else
        { st with frame := st.frame + 1, ema := emaUpdate cfg.ema_alpha st.ema s }, true)

/-- A run of the node over a sequence of frames, each given as (arrival time,
decoded statistics or `none` for a decode failure). -/
def runFrames (cfg : Config) (st : NodeState) (msgs : List (ℚ × Option BrightnessStats)) :
    NodeState :=
  msgs.foldl (fun s p => (processFrame cfg s p.1 p.2).1) st

/-- A sequence of controller ticks: each tick supplies the smoothed statistics
the controller reads and the wall-clock time of the tick. -/
def runTicks (cfg : Config) (st : NodeState) (ticks : List (ℚ × BrightnessStats)) :
    NodeState :=
  ticks.foldl (fun s p => autoTune cfg { s with ema := p.2 } p.1) st

/-- The bounds invariant claimed of `TuningParameters`. -/
def inBounds (cfg : Config) (st : NodeState) : Prop :=
  cfg.gamma_min ≤ st.gamma ∧ st.gamma ≤ cfg.gamma_max ∧
  cfg.clahe_min ≤ st.clahe_clip ∧ st.clahe_clip ≤ cfg.clahe_max

instance (cfg : Config) (st : NodeState) : Decidable (inBounds cfg st) := by
  unfold inBounds
  infer_instance

/-! ### Helper lemmas about the controller -/

lemma npClip_mem (x lo hi : ℚ) (h : lo ≤ hi) : lo ≤ npClip x lo hi ∧ npClip x lo hi ≤ hi :=
  ⟨le_min h (le_max_right x lo), min_le_left hi (max x lo)⟩

lemma npClip_eq_self (x lo hi : ℚ) (h1 : lo ≤ x) (h2 : x ≤ hi) : npClip x lo hi = x := by
  unfold npClip
  rw [max_eq_left h1, min_eq_right h2]

lemma autoTune_gate_frame (cfg : Config) (st : NodeState) (now : ℚ)
    (h : st.frame % cfg.update_every_n ≠ 0) : autoTune cfg st now = st := by
  unfold autoTune
  rw [if_pos h]

lemma autoTune_gate_time (cfg : Config) (st : NodeState) (now : ℚ)
    (h : now - st.last_update_t < cfg.min_update_interval) : autoTune cfg st now = st := by
  by_cases h1 : st.frame % cfg.update_every_n ≠ 0
  · exact autoTune_gate_frame cfg st now h1
  · unfold autoTune
    rw [if_neg h1, if_pos h]

/-- A tick either leaves the node state unchanged or commits the clamped
proposal and resets the timer. -/
lemma autoTune_cases (cfg : Config) (st : NodeState) (now : ℚ) :
    autoTune cfg st now = st ∨
    autoTune cfg st now =
      { st with
        gamma := npClip (tunePropose cfg st.ema st.gamma st.clahe_clip).1 cfg.gamma_min cfg.gamma_max
        clahe_clip := npClip (tunePropose cfg st.ema st.gamma st.clahe_clip).2 cfg.clahe_min cfg.clahe_max
        last_update_t := now } := by
  unfold autoTune
  split
  · exact Or.inl rfl
  split
  · exact Or.inl rfl
  split
  · exact Or.inr rfl
  · exact Or.inl rfl

lemma autoTune_frame (cfg : Config) (st : NodeState) (now : ℚ) :
    (autoTune cfg st now).frame = st.frame := by
  rcases autoTune_cases cfg st now with h | h <;> rw [h]

lemma autoTune_ema (cfg : Config) (st : NodeState) (now : ℚ) :
    (autoTune cfg st now).ema = st.ema := by
  rcases autoTune_cases cfg st now with h | h <;> rw [h]

/-- A committed change requires both gates open, and resets the timer. -/
lemma autoTune_changed (cfg : Config) (st : NodeState) (now : ℚ)
    (h : (autoTune cfg st now).gamma ≠ st.gamma ∨ (autoTune cfg st now).clahe_clip ≠ st.clahe_clip) :
    st.frame % cfg.update_every_n = 0 ∧
    cfg.min_update_interval ≤ now - st.last_update_t ∧
    (autoTune cfg st now).last_update_t = now := by
  by_cases h1 : st.frame % cfg.update_every_n = 0
  · by_cases h2 : now - st.last_update_t < cfg.min_update_interval
    · rw [autoTune_gate_time cfg st now h2] at h
      rcases h with h | h <;> exact absurd rfl h
    · refine ⟨h1, not_lt.mp h2, ?_⟩
      have hne : autoTune cfg st now ≠ st := by
        intro he
        rw [he] at h
        rcases h with h | h <;> exact absurd rfl h
      rcases autoTune_cases cfg st now with hc | hc
      · exact absurd hc hne
      · rw [hc]
  · rw [autoTune_gate_frame cfg st now h1] at h
    rcases h with h | h <;> exact absurd rfl h

lemma autoTune_bounds (cfg : Config) (st : NodeState) (now : ℚ)
    (h : inBounds cfg st) : inBounds cfg (autoTune cfg st now) := by
  obtain ⟨hg1, hg2, hc1, hc2⟩ := h
  rcases autoTune_cases cfg st now with hc | hc <;> rw [hc]
  · exact ⟨hg1, hg2, hc1, hc2⟩
  · obtain ⟨a1, a2⟩ := npClip_mem (tunePropose cfg st.ema st.gamma st.clahe_clip).1
      cfg.gamma_min cfg.gamma_max (hg1.trans hg2)
    obtain ⟨b1, b2⟩ := npClip_mem (tunePropose cfg st.ema st.gamma st.clahe_clip).2
      cfg.clahe_min cfg.clahe_max (hc1.trans hc2)
    exact ⟨a1, a2, b1, b2⟩

lemma processFrame_frame (cfg : Config) (st : NodeState) (now : ℚ)
    (m : Option BrightnessStats) : (processFrame cfg st now m).1.frame = st.frame + 1 := by
  match m with
  | none => rfl
  | some s =>
      show (if cfg.auto_tune_enable then _ else _ : NodeState).frame = st.frame + 1
      split
      · exact autoTune_frame cfg _ now
      · rfl

lemma processFrame_params (cfg : Config) (st : NodeState) (now : ℚ)
    (m : Option BrightnessStats) :
    ((processFrame cfg st now m).1.gamma = st.gamma ∧
     (processFrame cfg st now m).1.clahe_clip = st.clahe_clip) ∨
    (cfg.auto_tune_enable = true ∧ ∃ s : BrightnessStats, m = some s ∧
      (processFrame cfg st now m).1 =
        autoTune cfg { st with frame := st.frame + 1, ema := emaUpdate cfg.ema_alpha st.ema s } now) := by
  match m with
  | none => exact Or.inl ⟨rfl, rfl⟩
  | some s =>
      by_cases h : cfg.auto_tune_enable
      · exact Or.inr ⟨h, s, rfl, by simp [processFrame, h]⟩
      · refine Or.inl ?_
        simp only [processFrame, h]
        exact ⟨rfl, rfl⟩

lemma processFrame_bounds (cfg : Config) (st : NodeState) (now : ℚ)
    (m : Option BrightnessStats) (h : inBounds cfg st) :
    inBounds cfg (processFrame cfg st now m).1 := by
  rcases processFrame_params cfg st now m with ⟨hg, hc⟩ | ⟨_, s, _, he⟩
  · obtain ⟨h1, h2, h3, h4⟩ := h
    exact ⟨hg ▸ h1, hg ▸ h2, hc ▸ h3, hc ▸ h4⟩
  · rw [he]
    exact autoTune_bounds cfg _ now h

lemma runFrames_bounds (cfg : Config) (msgs : List (ℚ × Option BrightnessStats)) :
    ∀ st : NodeState, inBounds cfg st → inBounds cfg (runFrames cfg st msgs) := by
  induction msgs with
  | nil => exact fun st h => h
  | cons p rest ih =>
      intro st h
      exact ih (processFrame cfg st p.1 p.2).1 (processFrame_bounds cfg st p.1 p.2 h)

/-- When a frame reports a change of the parameters, both gates were open for
it (with respect to the post-increment frame counter), and the timer was reset
to the frame's time. -/
lemma processFrame_changed (cfg : Config) (st : NodeState) (now : ℚ)
    (m : Option BrightnessStats)
    (h : (processFrame cfg st now m).1.gamma ≠ st.gamma ∨
         (processFrame cfg st now m).1.clahe_clip ≠ st.clahe_clip) :
    (st.frame + 1) % cfg.update_every_n = 0 ∧
    cfg.min_update_interval ≤ now - st.last_update_t ∧
    (processFrame cfg st now m).1.last_update_t = now := by
  rcases processFrame_params cfg st now m with ⟨hg, hc⟩ | ⟨_, s, _, he⟩
  · rcases h with h | h
    · exact absurd hg h
    · exact absurd hc h
  · rw [he] at h ⊢
    exact autoTune_changed cfg _ now h

lemma processFrame_gate_closed (cfg : Config) (st : NodeState) (now : ℚ)
    (m : Option BrightnessStats) (h : (st.frame + 1) % cfg.update_every_n ≠ 0) :
    (processFrame cfg st now m).1.gamma = st.gamma ∧
    (processFrame cfg st now m).1.clahe_clip = st.clahe_clip := by
  rcases processFrame_params cfg st now m with ⟨hg, hc⟩ | ⟨_, s, _, he⟩
  · exact ⟨hg, hc⟩
  · rw [he, autoTune_gate_frame cfg _ now h]
    exact ⟨rfl, rfl⟩

/-- With `update_every_n = 8`, any run that starts at a frame counter small
enough that no counter value divisible by 8 is reached leaves the parameters
untouched. -/
lemma runFrames_early (cfg : Config) (msgs : List (ℚ × Option BrightnessStats)) :
    ∀ st : NodeState, cfg.update_every_n = 8 → st.frame + msgs.length ≤ 7 →
      (runFrames cfg st msgs).gamma = st.gamma ∧
      (runFrames cfg st msgs).clahe_clip = st.clahe_clip := by
  induction msgs with
  | nil => exact fun st _ _ => ⟨rfl, rfl⟩
  | cons p rest ih =>
      intro st h8 hle
      have hlt : st.frame + 1 < 8 := by
        simp only [List.length_cons] at hle
        omega
      have hgate : (st.frame + 1) % cfg.update_every_n ≠ 0 := by
        rw [h8, Nat.mod_eq_of_lt hlt]
        omega
      obtain ⟨hg, hc⟩ := processFrame_gate_closed cfg st p.1 p.2 hgate
      have hframe := processFrame_frame cfg st p.1 p.2
      have hrest := ih (processFrame cfg st p.1 p.2).1 h8 (by
        rw [hframe]
        simp only [List.length_cons] at hle
        omega)
      refine ⟨?_, ?_⟩
      · show (runFrames cfg (processFrame cfg st p.1 p.2).1 rest).gamma = st.gamma
        rw [hrest.1, hg]
      · show (runFrames cfg (processFrame cfg st p.1 p.2).1 rest).clahe_clip = st.clahe_clip
        rw [hrest.2, hc]

/-- One tick with the smoothed std exactly at the low-contrast threshold, no
saturation, and an in-bounds clip limit inside the dead-band leaves the clip
limit unchanged. -/
lemma autoTune_deadband (cfg : Config) (st : NodeState) (now : ℚ)
    (hstd : st.ema.std = cfg.low_contrast_std_thr)
    (hsat : st.ema.sat_ratio ≤ cfg.sat_ratio_thr)
    (hlo : cfg.clahe_min ≤ st.clahe_clip) (hhi : st.clahe_clip ≤ cfg.clahe_max)
    (hd1 : claheTarget - 1/5 ≤ st.clahe_clip) (hd2 : st.clahe_clip ≤ claheTarget + 1/5) :
    (autoTune cfg st now).clahe_clip = st.clahe_clip := by
  have hp : (tunePropose cfg st.ema st.gamma st.clahe_clip).2 = st.clahe_clip := by
    rw [tunePropose, if_neg (not_lt.mpr hsat)]
    show proposeClaheRule cfg st.ema st.clahe_clip = st.clahe_clip
    rw [proposeClaheRule, hstd, if_neg (lt_irrefl cfg.low_contrast_std_thr),
      if_neg (not_lt.mpr hd2), if_neg (not_lt.mpr hd1)]
  rcases autoTune_cases cfg st now with h | h <;> rw [h]
  show npClip (tunePropose cfg st.ema st.gamma st.clahe_clip).2 cfg.clahe_min cfg.clahe_max
      = st.clahe_clip
  rw [hp, npClip_eq_self st.clahe_clip cfg.clahe_min cfg.clahe_max hlo hhi]

/-- Iterated version of `autoTune_deadband` over any tick sequence whose
statistics hold the std at the threshold with no saturation. -/
lemma runTicks_deadband (cfg : Config) (ticks : List (ℚ × BrightnessStats)) :
    ∀ st : NodeState,
      (∀ p ∈ ticks, p.2.std = cfg.low_contrast_std_thr ∧ p.2.sat_ratio ≤ cfg.sat_ratio_thr) →
      cfg.clahe_min ≤ st.clahe_clip → st.clahe_clip ≤ cfg.clahe_max →
      claheTarget - 1/5 ≤ st.clahe_clip → st.clahe_clip ≤ claheTarget + 1/5 →
      (runTicks cfg st ticks).clahe_clip = st.clahe_clip := by
  induction ticks with
  | nil => exact fun st _ _ _ _ _ => rfl
  | cons p rest ih =>
      intro st hall hlo hhi hd1 hd2
      have hp := hall p (List.mem_cons_self p rest)
      have hstep : (autoTune cfg { st with ema := p.2 } p.1).clahe_clip = st.clahe_clip :=
        autoTune_deadband cfg { st with ema := p.2 } p.1 hp.1 hp.2 hlo hhi hd1 hd2
      have hrest := ih (autoTune cfg { st with ema := p.2 } p.1)
        (fun q hq => hall q (List.mem_cons_of_mem p hq))
        (by rw [hstep]; exact hlo) (by rw [hstep]; exact hhi)
        (by rw [hstep]; exact hd1) (by rw [hstep]; exact hd2)
      show (runTicks cfg (autoTune cfg { st with ema := p.2 } p.1) rest).clahe_clip
      = st.clahe_clip
      rw [hrest, hstep]

/-- With auto-tuning disabled, a frame never touches the parameters. -/
lemma processFrame_disabled (cfg : Config) (st : NodeState) (now : ℚ)
    (m : Option BrightnessStats) (h : cfg.auto_tune_enable = false) :
    (processFrame cfg st now m).1.gamma = st.gamma ∧
    (processFrame cfg st now m).1.clahe_clip = st.clahe_clip := by
  rcases processFrame_params cfg st now m with ⟨hg, hc⟩ | ⟨he, _, _, _⟩
  · exact ⟨hg, hc⟩
  · rw [h] at he
    exact absurd he (by simp)

lemma runFrames_disabled (cfg : Config) (msgs : List (ℚ × Option BrightnessStats))
    (h : cfg.auto_tune_enable = false) :
    ∀ st : NodeState,
      (runFrames cfg st msgs).gamma = st.gamma ∧
      (runFrames cfg st msgs).clahe_clip = st.clahe_clip := by
  induction msgs with
  | nil => exact fun st => ⟨rfl, rfl⟩
  | cons p rest ih =>
      intro st
      obtain ⟨hg, hc⟩ := processFrame_disabled cfg st p.1 p.2 h
      obtain ⟨hg', hc'⟩ := ih (processFrame cfg st p.1 p.2).1
      exact ⟨hg'.trans hg, hc'.trans hc⟩

/-! ### The claims -/

/-- C1 counterexample: the claim fails immediately after construction.  With
configured `gamma = 2` and the default bounds `[0.7, 1.6]`, the constructor
stores gamma unclamped and unchecked, so the state right after construction
already violates the bounds invariant. -/
theorem C1_counterexample :
    ¬ inBounds { defaultConfig with gamma := 2 }
        (mkNode { defaultConfig with gamma := 2 }) := by
  intro h
  have h2 := h.2.1
  norm_num [mkNode, defaultConfig] at h2

/-- C1 (amended): for every configuration whose initial `gamma` and
`clahe_clip` lie within their configured `[min, max]` bounds, both parameters
remain within bounds at all times — immediately after construction and after
any number of processed frames, hence after any number of controller ticks. -/
theorem C1_bounds_invariant (cfg : Config) (h : inBounds cfg (mkNode cfg))
    (msgs : List (ℚ × Option BrightnessStats)) :
    inBounds cfg (runFrames cfg (mkNode cfg) msgs) :=
  runFrames_bounds cfg msgs (mkNode cfg) h

/-- C1 witness: the amended invariant at the default configuration with
auto-tuning enabled, over a concrete run mixing dark, saturated and
undecodable frames. -/
theorem C1_bounds_invariant_witness :
    inBounds { defaultConfig with auto_tune_enable := true }
      (mkNode { defaultConfig with auto_tune_enable := true }) ∧
    inBounds { defaultConfig with auto_tune_enable := true }
      (runFrames { defaultConfig with auto_tune_enable := true }
        (mkNode { defaultConfig with auto_tune_enable := true })
        [(1, some ⟨60, 50, 0, 0⟩), (2, none), (3, some ⟨250, 5, 3/10, 0⟩)]) :=
  ⟨by refine ⟨?_, ?_, ?_, ?_⟩ <;> norm_num [mkNode, defaultConfig],
   C1_bounds_invariant { defaultConfig with auto_tune_enable := true }
     (by refine ⟨?_, ?_, ?_, ?_⟩ <;> norm_num [mkNode, defaultConfig]) _⟩

/-- C2: on an eligible tick with the smoothed saturation ratio above the
threshold, the decision block proposes exactly the saturation deltas — gamma
lowered by `gamma_step_saturated` and clahe lowered by `clahe_step`, each
clamped to its minimum; the proposal is independent of the brightness and
contrast statistics (so no brightness- or contrast-rule delta applies even if
their conditions hold simultaneously); and the tick commits exactly those
clamped saturation values through the usual change test. -/
theorem C2_saturation_override (cfg : Config) (st : NodeState) (now : ℚ)
    (h1 : st.frame % cfg.update_every_n = 0)
    (h2 : cfg.min_update_interval ≤ now - st.last_update_t)
    (hsat : cfg.sat_ratio_thr < st.ema.sat_ratio) :
    tunePropose cfg st.ema st.gamma st.clahe_clip =
      (max cfg.gamma_min (st.gamma - cfg.gamma_step_saturated),
       max cfg.clahe_min (st.clahe_clip - cfg.clahe_step)) ∧
    (∀ e : BrightnessStats, e.sat_ratio = st.ema.sat_ratio →
      tunePropose cfg e st.gamma st.clahe_clip =
        tunePropose cfg st.ema st.gamma st.clahe_clip) ∧
    autoTune cfg st now =
      (if 1/1000000 < |max cfg.gamma_min (st.gamma - cfg.gamma_step_saturated) - st.gamma| ∨
          1/1000000 < |max cfg.clahe_min (st.clahe_clip - cfg.clahe_step) - st.clahe_clip| then
        { st with
          gamma := npClip (max cfg.gamma_min (st.gamma - cfg.gamma_step_saturated))
            cfg.gamma_min cfg.gamma_max
          clahe_clip := npClip (max cfg.clahe_min (st.clahe_clip - cfg.clahe_step))
            cfg.clahe_min cfg.clahe_max
          last_update_t := now }
      else st) := by
  have hprop : ∀ e : BrightnessStats, cfg.sat_ratio_thr < e.sat_ratio →
      tunePropose cfg e st.gamma st.clahe_clip =
        (max cfg.gamma_min (st.gamma - cfg.gamma_step_saturated),
         max cfg.clahe_min (st.clahe_clip - cfg.clahe_step)) := by
    intro e he
    rw [tunePropose, if_pos he]
  refine ⟨hprop st.ema hsat, ?_, ?_⟩
  · intro e he
    rw [hprop st.ema hsat, hprop e (by rw [he]; exact hsat)]
  · unfold autoTune
    rw [if_neg (not_not_intro h1), if_neg (not_lt.mpr h2), hprop st.ema hsat]

/-- C2 witness: a saturated state whose brightness condition (`mean = 60 <
dark_mean_thr = 90`) holds at the same time; only the saturation deltas are
proposed. -/
theorem C2_saturation_override_witness :
    tunePropose defaultConfig
        ({ mkNode defaultConfig with ema := ⟨60, 10, 3/10, 1/5⟩ } : NodeState).ema
        ({ mkNode defaultConfig with ema := ⟨60, 10, 3/10, 1/5⟩ } : NodeState).gamma
        ({ mkNode defaultConfig with ema := ⟨60, 10, 3/10, 1/5⟩ } : NodeState).clahe_clip =
      (max defaultConfig.gamma_min
        (({ mkNode defaultConfig with ema := ⟨60, 10, 3/10, 1/5⟩ } : NodeState).gamma -
          defaultConfig.gamma_step_saturated),
       max defaultConfig.clahe_min
        (({ mkNode defaultConfig with ema := ⟨60, 10, 3/10, 1/5⟩ } : NodeState).clahe_clip -
          defaultConfig.clahe_step)) :=
  (C2_saturation_override defaultConfig
    { mkNode defaultConfig with ema := ⟨60, 10, 3/10, 1/5⟩ } 1
    rfl (by norm_num [mkNode, defaultConfig])
    (by norm_num [mkNode, defaultConfig])).1

/-- C3: parameters change on a frame only when both gates hold for it — the
post-increment frame counter is divisible by `update_every_n` and the time
since `last_update_t` is at least `min_update_interval` — and a committed
change stamps the timer with the frame's time; with `update_every_n = 8` no
parameter changes on frames 1-7 of any run; and with `min_update_interval =
0.25` a second committed change, over any interleaving of frames that leave
the timer alone, comes at least 0.25 time units after the first. -/
theorem C3_rate_limiting :
    (∀ (cfg : Config) (st : NodeState) (now : ℚ) (m : Option BrightnessStats),
      (processFrame cfg st now m).1.gamma ≠ st.gamma ∨
      (processFrame cfg st now m).1.clahe_clip ≠ st.clahe_clip →
      (st.frame + 1) % cfg.update_every_n = 0 ∧
      cfg.min_update_interval ≤ now - st.last_update_t ∧
      (processFrame cfg st now m).1.last_update_t = now) ∧
    (∀ (cfg : Config) (st : NodeState) (msgs : List (ℚ × Option BrightnessStats)),
      cfg.update_every_n = 8 → st.frame = 0 → msgs.length ≤ 7 →
      (runFrames cfg st msgs).gamma = st.gamma ∧
      (runFrames cfg st msgs).clahe_clip = st.clahe_clip) ∧
    (∀ (cfg : Config) (st : NodeState) (t1 t2 : ℚ) (m1 m2 : Option BrightnessStats)
      (msgs : List (ℚ × Option BrightnessStats)),
      cfg.min_update_interval = 1/4 →
      ((processFrame cfg st t1 m1).1.gamma ≠ st.gamma ∨
       (processFrame cfg st t1 m1).1.clahe_clip ≠ st.clahe_clip) →
      (runFrames cfg (processFrame cfg st t1 m1).1 msgs).last_update_t =
        (processFrame cfg st t1 m1).1.last_update_t →
      ((processFrame cfg (runFrames cfg (processFrame cfg st t1 m1).1 msgs) t2 m2).1.gamma ≠
        (runFrames cfg (processFrame cfg st t1 m1).1 msgs).gamma ∨
       (processFrame cfg (runFrames cfg (processFrame cfg st t1 m1).1 msgs) t2 m2).1.clahe_clip ≠
        (runFrames cfg (processFrame cfg st t1 m1).1 msgs).clahe_clip) →
      1/4 ≤ t2 - t1) := by
  refine ⟨?_, ?_, ?_⟩
  · intro cfg st now m h
    exact processFrame_changed cfg st now m h
  · intro cfg st msgs h8 h0 hlen
    exact runFrames_early cfg msgs st h8 (by omega)
  · intro cfg st t1 t2 m1 m2 msgs hq h1 hkeep h2
    obtain ⟨-, -, hlast⟩ := processFrame_changed cfg st t1 m1 h1
    obtain ⟨-, hge, -⟩ := processFrame_changed cfg _ t2 m2 h2
    rw [hkeep, hlast, hq] at hge
    exact hge

/-- C3 witness: with the default `update_every_n = 8` and tuning enabled,
three dark frames at the start of a run leave gamma untouched. -/
theorem C3_rate_limiting_witness :
    (runFrames { defaultConfig with auto_tune_enable := true } (mkNode defaultConfig)
      [(1, some ⟨60, 50, 0, 0⟩), (2, some ⟨60, 50, 0, 0⟩), (3, some ⟨250, 5, 1/2, 0⟩)]).gamma
      = (mkNode defaultConfig).gamma :=
  (C3_rate_limiting.2.1 { defaultConfig with auto_tune_enable := true }
    (mkNode defaultConfig) _ rfl rfl (by norm_num)).1

/-- C4: on an eligible tick, a proposal differing from the stored values by
more than `1e-6` in either component commits — both values clamped to the
configured bounds and `last_update_t` reset to the tick's time — while a
proposal within `1e-6` in both components leaves the state, including
`last_update_t`, completely unchanged. -/
theorem C4_commit_semantics (cfg : Config) (st : NodeState) (now : ℚ)
    (h1 : st.frame % cfg.update_every_n = 0)
    (h2 : cfg.min_update_interval ≤ now - st.last_update_t) :
    (1/1000000 < |(tunePropose cfg st.ema st.gamma st.clahe_clip).1 - st.gamma| ∨
     1/1000000 < |(tunePropose cfg st.ema st.gamma st.clahe_clip).2 - st.clahe_clip| →
      autoTune cfg st now =
        { st with
          gamma := npClip (tunePropose cfg st.ema st.gamma st.clahe_clip).1
            cfg.gamma_min cfg.gamma_max
          clahe_clip := npClip (tunePropose cfg st.ema st.gamma st.clahe_clip).2
            cfg.clahe_min cfg.clahe_max
          last_update_t := now }) ∧
    (¬ (1/1000000 < |(tunePropose cfg st.ema st.gamma st.clahe_clip).1 - st.gamma| ∨
        1/1000000 < |(tunePropose cfg st.ema st.gamma st.clahe_clip).2 - st.clahe_clip|) →
      autoTune cfg st now = st) := by
  unfold autoTune
  rw [if_neg (not_not_intro h1), if_neg (not_lt.mpr h2)]
  constructor
  · intro h
    rw [if_pos h]
  · intro h
    rw [if_neg h]

/-- C4 witness: a dark state at an eligible tick; the proposal moves gamma by
`gamma_step = 0.05 > 1e-6`, so the change commits and stamps the timer. -/
theorem C4_commit_semantics_witness :
    autoTune defaultConfig ({ mkNode defaultConfig with ema := ⟨60, 50, 0, 0⟩ } : NodeState) 1 =
      { ({ mkNode defaultConfig with ema := ⟨60, 50, 0, 0⟩ } : NodeState) with
        gamma := npClip
          (tunePropose defaultConfig
            ({ mkNode defaultConfig with ema := ⟨60, 50, 0, 0⟩ } : NodeState).ema
            ({ mkNode defaultConfig with ema := ⟨60, 50, 0, 0⟩ } : NodeState).gamma
            ({ mkNode defaultConfig with ema := ⟨60, 50, 0, 0⟩ } : NodeState).clahe_clip).1
          defaultConfig.gamma_min defaultConfig.gamma_max
        clahe_clip := npClip
          (tunePropose defaultConfig
            ({ mkNode defaultConfig with ema := ⟨60, 50, 0, 0⟩ } : NodeState).ema
            ({ mkNode defaultConfig with ema := ⟨60, 50, 0, 0⟩ } : NodeState).gamma
            ({ mkNode defaultConfig with ema := ⟨60, 50, 0, 0⟩ } : NodeState).clahe_clip).2
          defaultConfig.clahe_min defaultConfig.clahe_max
        last_update_t := 1 } :=
  (C4_commit_semantics defaultConfig { mkNode defaultConfig with ema := ⟨60, 50, 0, 0⟩ } 1
    rfl (by norm_num [mkNode, defaultConfig])).1
    (by norm_num [tunePropose, proposeGammaRule, proposeClaheRule, mkNode, defaultConfig,
      claheTarget, abs, min_def, max_def])

/-- C5: on an eligible tick where the saturation override does not fire, the
gamma proposal follows three mutually exclusive branches: dark (`mean <
dark_mean_thr` or `dark_ratio > dark_ratio_thr`) raises gamma by `gamma_step`
clamped to the maximum; otherwise bright (`mean > bright_mean_thr`) lowers it
by `gamma_step` clamped to the minimum; otherwise gamma is unchanged. -/
theorem C5_brightness_rule (cfg : Config) (st : NodeState) (now : ℚ)
    (_h1 : st.frame % cfg.update_every_n = 0)
    (_h2 : cfg.min_update_interval ≤ now - st.last_update_t)
    (hsat : st.ema.sat_ratio ≤ cfg.sat_ratio_thr) :
    ((st.ema.mean < cfg.dark_mean_thr ∨ cfg.dark_ratio_thr < st.ema.dark_ratio) →
      (tunePropose cfg st.ema st.gamma st.clahe_clip).1 =
        min cfg.gamma_max (st.gamma + cfg.gamma_step)) ∧
    (¬ (st.ema.mean < cfg.dark_mean_thr ∨ cfg.dark_ratio_thr < st.ema.dark_ratio) →
      cfg.bright_mean_thr < st.ema.mean →
      (tunePropose cfg st.ema st.gamma st.clahe_clip).1 =
        max cfg.gamma_min (st.gamma - cfg.gamma_step)) ∧
    (¬ (st.ema.mean < cfg.dark_mean_thr ∨ cfg.dark_ratio_thr < st.ema.dark_ratio) →
      ¬ cfg.bright_mean_thr < st.ema.mean →
      (tunePropose cfg st.ema st.gamma st.clahe_clip).1 = st.gamma) := by
  have hs : tunePropose cfg st.ema st.gamma st.clahe_clip =
      (proposeGammaRule cfg st.ema st.gamma, proposeClaheRule cfg st.ema st.clahe_clip) := by
    rw [tunePropose, if_neg (not_lt.mpr hsat)]
  rw [hs]
  refine ⟨?_, ?_, ?_⟩
  · intro hdark
    show proposeGammaRule cfg st.ema st.gamma = _
    rw [proposeGammaRule, if_pos hdark]
  · intro hdark hbright
    show proposeGammaRule cfg st.ema st.gamma = _
    rw [proposeGammaRule, if_neg hdark, if_pos hbright]
  · intro hdark hbright
    show proposeGammaRule cfg st.ema st.gamma = _
    rw [proposeGammaRule, if_neg hdark, if_neg hbright]

/-- C5 witness: a dark, unsaturated state on an eligible tick takes the
raise-gamma branch. -/
theorem C5_brightness_rule_witness :
    (tunePropose defaultConfig
      ({ mkNode defaultConfig with ema := ⟨60, 50, 0, 0⟩ } : NodeState).ema
      ({ mkNode defaultConfig with ema := ⟨60, 50, 0, 0⟩ } : NodeState).gamma
      ({ mkNode defaultConfig with ema := ⟨60, 50, 0, 0⟩ } : NodeState).clahe_clip).1 =
      min defaultConfig.gamma_max
        (({ mkNode defaultConfig with ema := ⟨60, 50, 0, 0⟩ } : NodeState).gamma +
          defaultConfig.gamma_step) :=
  (C5_brightness_rule defaultConfig { mkNode defaultConfig with ema := ⟨60, 50, 0, 0⟩ } 1
    rfl (by norm_num [mkNode, defaultConfig]) (by norm_num [mkNode, defaultConfig])).1
    (Or.inl (by norm_num [mkNode, defaultConfig]))

/-- C6: on an eligible tick where the saturation override does not fire, the
clahe proposal raises the clip limit by `clahe_step` clamped to the maximum
under low contrast (`std < low_contrast_std_thr`), and otherwise relaxes
toward the nominal target 2.3 with a ±0.2 dead-band: lowered by `clahe_step ×
0.5` above `target + 0.2`, raised by `clahe_step × 0.3` below `target - 0.2`,
and unchanged inside the dead-band.  In particular, over any tick sequence
holding the smoothed std exactly at `low_contrast_std_thr` with no saturation,
an in-bounds `clahe_clip` inside the dead-band never changes. -/
theorem C6_contrast_rule (cfg : Config) (st : NodeState) (now : ℚ)
    (_h1 : st.frame % cfg.update_every_n = 0)
    (_h2 : cfg.min_update_interval ≤ now - st.last_update_t)
    (hsat : st.ema.sat_ratio ≤ cfg.sat_ratio_thr) :
    (st.ema.std < cfg.low_contrast_std_thr →
      (tunePropose cfg st.ema st.gamma st.clahe_clip).2 =
        min cfg.clahe_max (st.clahe_clip + cfg.clahe_step)) ∧
    (¬ st.ema.std < cfg.low_contrast_std_thr →
      claheTarget + 1/5 < st.clahe_clip →
      (tunePropose cfg st.ema st.gamma st.clahe_clip).2 =
        max cfg.clahe_min (st.clahe_clip - cfg.clahe_step * (1/2))) ∧
    (¬ st.ema.std < cfg.low_contrast_std_thr →
      st.clahe_clip < claheTarget - 1/5 →
      (tunePropose cfg st.ema st.gamma st.clahe_clip).2 =
        min cfg.clahe_max (st.clahe_clip + cfg.clahe_step * (3/10))) ∧
    (¬ st.ema.std < cfg.low_contrast_std_thr →
      claheTarget - 1/5 ≤ st.clahe_clip → st.clahe_clip ≤ claheTarget + 1/5 →
      (tunePropose cfg st.ema st.gamma st.clahe_clip).2 = st.clahe_clip) ∧
    (∀ (st2 : NodeState) (ticks : List (ℚ × BrightnessStats)),
      (∀ p ∈ ticks, p.2.std = cfg.low_contrast_std_thr ∧
        p.2.sat_ratio ≤ cfg.sat_ratio_thr) →
      cfg.clahe_min ≤ st2.clahe_clip → st2.clahe_clip ≤ cfg.clahe_max →
      claheTarget - 1/5 ≤ st2.clahe_clip → st2.clahe_clip ≤ claheTarget + 1/5 →
      (runTicks cfg st2 ticks).clahe_clip = st2.clahe_clip) := by
  have hs : tunePropose cfg st.ema st.gamma st.clahe_clip =
      (proposeGammaRule cfg st.ema st.gamma, proposeClaheRule cfg st.ema st.clahe_clip) := by
    rw [tunePropose, if_neg (not_lt.mpr hsat)]
  rw [hs]
  refine ⟨?_, ?_, ?_, ?_, ?_⟩
  · intro hlow
    show proposeClaheRule cfg st.ema st.clahe_clip = _
    rw [proposeClaheRule, if_pos hlow]
  · intro hlow habove
    show proposeClaheRule cfg st.ema st.clahe_clip = _
    rw [proposeClaheRule, if_neg hlow, if_pos habove]
  · intro hlow hbelow
    show proposeClaheRule cfg st.ema st.clahe_clip = _
    have habove : ¬ claheTarget + 1/5 < st.clahe_clip := by
      rw [not_lt]
      refine hbelow.le.trans ?_
      rw [claheTarget]
      norm_num
    rw [proposeClaheRule, if_neg hlow, if_neg habove, if_pos hbelow]
  · intro hlow hd1 hd2
    show proposeClaheRule cfg st.ema st.clahe_clip = _
    rw [proposeClaheRule, if_neg hlow, if_neg (not_lt.mpr hd2), if_neg (not_lt.mpr hd1)]
  · intro st2 ticks hall hlo hhi hd1 hd2
    exact runTicks_deadband cfg ticks st2 hall hlo hhi hd1 hd2

/-- C6 witness: an unsaturated low-contrast state (`std = 10 < 35`) on an
eligible tick takes the raise-clahe branch. -/
theorem C6_contrast_rule_witness :
    (tunePropose defaultConfig
      ({ mkNode defaultConfig with ema := ⟨125, 10, 0, 0⟩ } : NodeState).ema
      ({ mkNode defaultConfig with ema := ⟨125, 10, 0, 0⟩ } : NodeState).gamma
      ({ mkNode defaultConfig with ema := ⟨125, 10, 0, 0⟩ } : NodeState).clahe_clip).2 =
      min defaultConfig.clahe_max
        (({ mkNode defaultConfig with ema := ⟨125, 10, 0, 0⟩ } : NodeState).clahe_clip +
          defaultConfig.clahe_step) :=
  (C6_contrast_rule defaultConfig { mkNode defaultConfig with ema := ⟨125, 10, 0, 0⟩ } 1
    rfl (by norm_num [mkNode, defaultConfig]) (by norm_num [mkNode, defaultConfig])).1
    (by norm_num [mkNode, defaultConfig])

/-- C7: for every accepted frame the smoothed statistics are replaced exactly
once by `(1-α)·S + α·X`, field by field, and the frame's controller step (gate
check included) runs on the state already holding the post-update smoothed
value. -/
theorem C7_ema_ordering (cfg : Config) (st : NodeState) (now : ℚ) (s : BrightnessStats) :
    (processFrame cfg st now (some s)).1.ema = emaUpdate cfg.ema_alpha st.ema s ∧
    emaUpdate cfg.ema_alpha st.ema s =
      { mean := (1 - cfg.ema_alpha) * st.ema.mean + cfg.ema_alpha * s.mean
        std := (1 - cfg.ema_alpha) * st.ema.std + cfg.ema_alpha * s.std
        sat_ratio := (1 - cfg.ema_alpha) * st.ema.sat_ratio + cfg.ema_alpha * s.sat_ratio
        dark_ratio := (1 - cfg.ema_alpha) * st.ema.dark_ratio + cfg.ema_alpha * s.dark_ratio } ∧
    (processFrame cfg st now (some s)).1 =
      (if cfg.auto_tune_enable then
        autoTune cfg { st with frame := st.frame + 1, ema := emaUpdate cfg.ema_alpha st.ema s } now
      else
        { st with frame := st.frame + 1, ema := emaUpdate cfg.ema_alpha st.ema s }) := by
  refine ⟨?_, rfl, rfl⟩
  have hd : (processFrame cfg st now (some s)).1 =
      (if cfg.auto_tune_enable then
        autoTune cfg { st with frame := st.frame + 1, ema := emaUpdate cfg.ema_alpha st.ema s } now
      else
        { st with frame := st.frame + 1, ema := emaUpdate cfg.ema_alpha st.ema s }) := rfl
  rw [hd]
  split
  · rw [autoTune_ema]
  · rfl

/-- C8 counterexample: the frame counter is not left unchanged on a malformed
frame — `cb` increments `self._frame` before the decode guard, so a frame
whose decoding fails still advances the counter. -/
theorem C8_counterexample :
    (processFrame defaultConfig (mkNode defaultConfig) 1 none).1.frame ≠
      (mkNode defaultConfig).frame := by
  decide

/-- C8 (amended): a malformed frame is skipped — no output is emitted for it,
processing continues, and the smoothed statistics, the parameters and
`last_update_t` are untouched — but the frame counter is still incremented,
since `cb` counts every arriving frame before the decode guard. -/
theorem C8_skip_effect (cfg : Config) (st : NodeState) (now : ℚ) :
    processFrame cfg st now none = ({ st with frame := st.frame + 1 }, false) :=
  rfl

/-- C9 counterexample: a configuration violating the physical constraints
(inverted gamma bounds, a negative step, smoothing factor above 1) is not
rejected: construction succeeds, stores it, and frames are then processed. -/
theorem C9_counterexample :
    badConfig.gamma_max < badConfig.gamma_min ∧ badConfig.gamma_step < 0 ∧
    1 < badConfig.ema_alpha ∧
    mkNodeE badConfig = Except.ok (mkNode badConfig) ∧
    (processFrame badConfig (mkNode badConfig) 1 (some ⟨0, 0, 0, 0⟩)).2 = true := by
  refine ⟨?_, ?_, ?_, rfl, rfl⟩ <;> norm_num [badConfig, defaultConfig]

/-- C9 (amended): the constructor performs no validation at all — for every
configuration, construction succeeds and stores the configured values as read,
with the frame counter, timer and smoothed statistics zeroed; no
`ConfigurationError` path exists. -/
theorem C9_no_validation (cfg : Config) :
    mkNodeE cfg = Except.ok
      { gamma := cfg.gamma, clahe_clip := cfg.clahe_clip, frame := 0, last_update_t := 0,
        ema := { mean := 0, std := 0, sat_ratio := 0, dark_ratio := 0 } } :=
  rfl

/-- C10: with `auto_tune_enable = false`, the parameters are never mutated
after construction over any sequence of frames, while each accepted frame
still increments the frame counter and updates the smoothed statistics. -/
theorem C10_auto_tune_disabled (cfg : Config) (h : cfg.auto_tune_enable = false) :
    (∀ (st : NodeState) (msgs : List (ℚ × Option BrightnessStats)),
      (runFrames cfg st msgs).gamma = st.gamma ∧
      (runFrames cfg st msgs).clahe_clip = st.clahe_clip) ∧
    (∀ (st : NodeState) (now : ℚ) (s : BrightnessStats),
      processFrame cfg st now (some s) =
        ({ st with frame := st.frame + 1, ema := emaUpdate cfg.ema_alpha st.ema s }, true)) := by
  refine ⟨fun st msgs => runFrames_disabled cfg msgs h st, fun st now s => ?_⟩
  simp [processFrame, h]

/-- C10 witness: the default configuration has tuning disabled; a run past the
8th frame (which would commit a change if tuning were enabled) leaves gamma at
its configured value. -/
theorem C10_auto_tune_disabled_witness :
    (runFrames defaultConfig (mkNode defaultConfig)
      [(1, some ⟨60, 50, 0, 0⟩), (2, some ⟨60, 50, 0, 0⟩), (3, some ⟨60, 50, 0, 0⟩),
       (4, some ⟨60, 50, 0, 0⟩), (5, some ⟨60, 50, 0, 0⟩), (6, some ⟨60, 50, 0, 0⟩),
       (7, some ⟨60, 50, 0, 0⟩), (8, some ⟨60, 50, 0, 0⟩),
       (9, some ⟨60, 50, 0, 0⟩)]).gamma = (mkNode defaultConfig).gamma :=
  ((C10_auto_tune_disabled defaultConfig rfl).1 (mkNode defaultConfig) _).1

end Preprocess
